import Mathlib

/-!
Verification development for the external-odc-products repository.

Shallow embedding of the core pure logic of the pipeline:
the work partitioner (numpy array_split followed by dropping empty
chunks and worker selection), the deterministic dataset UUID generator
(odc_uuid over SHA-1 based uuid5), the dekad calendar (get_dekad), the
tile-identity parsers (WorldCereal and WaPOR naming grammars), the
path/URI classifier built on urlparse scheme inspection, and the gdal
handler-path resolver get_path_with_handler.
-/

namespace ExternalODC

/-! ## Work partitioner

`np.array_split(arr, n)` splits an array of length `len` into `n`
contiguous sections: the first `len % n` sections have `len / n + 1`
elements and the remaining `n - len % n` sections have `len / n`
elements.  The CLI entry points then drop the empty chunks with
`list(filter(None, task_chunks))` and select `task_chunks[worker_idx]`,
exiting with status 0 when `len(task_chunks) <= worker_idx`.
-/

/-- Chunk sizes used by numpy array_split: `len % n` sections of size
`len / n + 1` followed by `n - len % n` sections of size `len / n`. -/
def splitSizes (len n : Nat) : List Nat :=
  List.replicate (len % n) (len / n + 1) ++ List.replicate (n - len % n) (len / n)

/-- Cut a list into consecutive chunks of the given sizes. -/
def takeChunks : List α → List Nat → List (List α)
  | _, [] => []
  | l, s :: ss => l.take s :: takeChunks (l.drop s) ss

/-- Embedding of `np.array_split(arr, n)` (as a list of lists). -/
def arraySplit (l : List α) (n : Nat) : List (List α) :=
  takeChunks l (splitSizes l.length n)

/-- Embedding of the task chunk computation in `download_wapor_v3_cogs`
and `create_stac_files`: array_split followed by
`list(filter(None, task_chunks))`, which drops the empty chunks. -/
def taskChunks (l : List α) (n : Nat) : List (List α) :=
  (arraySplit l n).filter (fun c => !c.isEmpty)

/-- Outcome of a worker process: a deliberate skip with an exit code, or
a run over the selected chunk. -/
inductive WorkerResult (α : Type) where
  | skipped (exitCode : Nat)
  | ran (chunk : List α)
deriving DecidableEq, Repr

/-- Embedding of the worker selection logic: if
`len(task_chunks) <= worker_idx` the worker logs a skip and calls
`sys.exit(0)` (success); otherwise it processes `task_chunks[worker_idx]`. -/
def runWorker (tasks : List α) (maxParallelSteps workerIdx : Nat) : WorkerResult α :=
  let chunks := taskChunks tasks maxParallelSteps
  if chunks.length ≤ workerIdx then .skipped 0
  else .ran (chunks.getD workerIdx [])

theorem splitSizes_sum (len n : Nat) (h : 1 ≤ n) : (splitSizes len n).sum = len := by
  have hr : len % n < n := Nat.mod_lt _ h
  have hsub : len % n + (n - len % n) = n := Nat.add_sub_cancel' (Nat.le_of_lt hr)
  simp only [splitSizes, List.sum_append, List.sum_replicate, smul_eq_mul]
  have expand : len % n * (len / n + 1) + (n - len % n) * (len / n)
      = (len % n + (n - len % n)) * (len / n) + len % n := by ring
  rw [expand, hsub]
  exact Nat.div_add_mod len n

theorem takeChunks_flatten (ss : List Nat) (l : List α) :
    (takeChunks l ss).flatten = l.take ss.sum := by
  induction ss generalizing l with
  | nil => simp [takeChunks]
  | cons s ss ih =>
      simp only [takeChunks, List.flatten_cons, List.sum_cons, ih, List.take_add]

theorem takeChunks_length (ss : List Nat) (l : List α) :
    (takeChunks l ss).length = ss.length := by
  induction ss generalizing l with
  | nil => rfl
  | cons s ss ih => simp [takeChunks, ih]

theorem takeChunks_map_length (ss : List Nat) (l : List α) (h : ss.sum ≤ l.length) :
    (takeChunks l ss).map List.length = ss := by
  induction ss generalizing l with
  | nil => rfl
  | cons s ss ih =>
      simp only [List.sum_cons] at h
      have hs : s ≤ l.length := le_trans (Nat.le_add_right _ _) h
      have hrest : ss.sum ≤ (l.drop s).length := by
        simp only [List.length_drop]
        omega
      simp [takeChunks, ih _ hrest, List.length_take, Nat.min_eq_left hs]

theorem flatten_filter_not_isEmpty (L : List (List α)) :
    (L.filter (fun c => !c.isEmpty)).flatten = L.flatten := by
  induction L with
  | nil => rfl
  | cons c L ih =>
      by_cases hc : c.isEmpty
      · have : c = [] := List.isEmpty_iff.mp hc
        simp [List.filter_cons, hc, ih, this]
      · simp [List.filter_cons, hc, ih]

theorem splitSizes_length (len n : Nat) (h : 1 ≤ n) : (splitSizes len n).length = n := by
  have hr : len % n < n := Nat.mod_lt _ h
  simp only [splitSizes, List.length_append, List.length_replicate]
  omega

theorem mem_splitSizes (len n s : Nat) (hs : s ∈ splitSizes len n) :
    s = len / n ∨ s = len / n + 1 := by
  simp only [splitSizes, List.mem_append, List.mem_replicate] at hs
  rcases hs with ⟨-, h⟩ | ⟨-, h⟩
  · right; exact h
  · left; exact h

theorem pairwise_ge_splitSizes (len n : Nat) :
    (splitSizes len n).Pairwise (fun a b => b ≤ a) := by
  rw [splitSizes, List.pairwise_append]
  refine ⟨List.pairwise_replicate.mpr (Or.inr le_rfl),
    List.pairwise_replicate.mpr (Or.inr le_rfl), ?_⟩
  intro a ha b hb
  rcases List.mem_replicate.mp ha with ⟨-, rfl⟩
  rcases List.mem_replicate.mp hb with ⟨-, rfl⟩
  exact Nat.le_succ _

theorem arraySplit_map_length (l : List α) (n : Nat) (h : 1 ≤ n) :
    (arraySplit l n).map List.length = splitSizes l.length n :=
  takeChunks_map_length _ _ (le_of_eq (splitSizes_sum l.length n h))

/-- C1: with `1 ≤ max_parallel_steps`, the work partitioner drops only
empty chunks, every surviving chunk has near-equal size (`len / n` or
`len / n + 1`), earlier chunks are never smaller than later ones, the
chunks concatenate back to the original list exactly (no loss, no
duplication), and there are at most `max_parallel_steps` chunks. -/
theorem work_partitioner_correct (l : List String) (n : Nat) (h : 1 ≤ n) :
    (taskChunks l n).flatten = l ∧
    (taskChunks l n).length ≤ n ∧
    (∀ c ∈ taskChunks l n, c ≠ []) ∧
    (∀ c ∈ taskChunks l n, c.length = l.length / n ∨ c.length = l.length / n + 1) ∧
    (taskChunks l n).Pairwise (fun a b => b.length ≤ a.length) := by
  refine ⟨?_, ?_, ?_, ?_, ?_⟩
  · rw [taskChunks, flatten_filter_not_isEmpty, arraySplit, takeChunks_flatten,
      splitSizes_sum l.length n h]
    exact List.take_length l
  · calc (taskChunks l n).length
        ≤ (arraySplit l n).length := List.length_filter_le _ _
      _ = (splitSizes l.length n).length := takeChunks_length _ _
      _ = n := splitSizes_length l.length n h
  · intro c hc
    have := List.of_mem_filter hc
    simpa [List.isEmpty_iff] using this
  · intro c hc
    have hmem : c ∈ arraySplit l n := List.mem_of_mem_filter hc
    have : c.length ∈ (arraySplit l n).map List.length := List.mem_map_of_mem _ hmem
    rw [arraySplit_map_length l n h] at this
    exact mem_splitSizes _ _ _ this
  · apply List.Pairwise.filter
    have hmap : ((arraySplit l n).map List.length).Pairwise (fun a b => b ≤ a) := by
      rw [arraySplit_map_length l n h]; exact pairwise_ge_splitSizes _ _
    exact (List.pairwise_map).mp hmap

theorem work_partitioner_correct_witness :
    (taskChunks ["t1", "t2", "t3", "t4", "t5"] 3).flatten = ["t1", "t2", "t3", "t4", "t5"] ∧
    (taskChunks ["t1", "t2", "t3", "t4", "t5"] 3).length ≤ 3 ∧
    (∀ c ∈ taskChunks ["t1", "t2", "t3", "t4", "t5"] 3, c ≠ []) ∧
    (∀ c ∈ taskChunks ["t1", "t2", "t3", "t4", "t5"] 3,
      c.length = (["t1", "t2", "t3", "t4", "t5"] : List String).length / 3 ∨
      c.length = (["t1", "t2", "t3", "t4", "t5"] : List String).length / 3 + 1) ∧
    (taskChunks ["t1", "t2", "t3", "t4", "t5"] 3).Pairwise (fun a b => b.length ≤ a.length) :=
  work_partitioner_correct ["t1", "t2", "t3", "t4", "t5"] 3 (by decide)

/-- C4: whenever the worker index is at least the number of non-empty
chunks, the selection is empty and the worker exits deliberately with
success status 0 instead of failing. -/
theorem worker_skip_success (tasks : List String) (n idx : Nat)
    (h : (taskChunks tasks n).length ≤ idx) :
    runWorker tasks n idx = .skipped 0 := by
  simp [runWorker, h]

theorem worker_skip_success_witness :
    runWorker ["t1"] 1 5 = .skipped 0 :=
  worker_skip_success ["t1"] 1 5 (by decide)

/-! ## Deterministic UUID generator

`odc_uuid` in `utils.py` builds a canonical string from its arguments
and hashes it with `uuid.uuid5` (SHA-1 based, RFC 4122 name-based
version 5) under the fixed namespace
`6f34c6f4-13d6-43c0-8e4e-42b6c13203af`.  Bytes are `Nat` values below
256, 32-bit words are `Nat` values reduced modulo `2 ^ 32`.
-/

/-- 32-bit left rotation. -/
def rotl32 (n x : Nat) : Nat := ((x <<< n) ||| (x >>> (32 - n))) % 4294967296

/-- The five 32-bit working registers of SHA-1. -/
structure SHA1State where
  a : Nat
  b : Nat
  c : Nat
  d : Nat
  e : Nat
deriving Repr, DecidableEq

/-- SHA-1 round function, by round index. -/
def sha1F (t b c d : Nat) : Nat :=
  if t < 20 then (b &&& c) ||| ((b ^^^ 4294967295) &&& d)
  else if t < 40 then b ^^^ c ^^^ d
  else if t < 60 then (b &&& c) ||| (b &&& d) ||| (c &&& d)
  else b ^^^ c ^^^ d

/-- SHA-1 round constants, by round index. -/
def sha1K (t : Nat) : Nat :=
  if t < 20 then 0x5A827999
  else if t < 40 then 0x6ED9EBA1
  else if t < 60 then 0x8F1BBCDC
  else 0xCA62C1D6

/-- Expand the 16 words of one message block into the 80-word schedule. -/
def sha1Schedule (block : List Nat) : Array Nat :=
  (List.range 64).foldl
    (fun w i =>
      let t := i + 16
      w.push (rotl32 1 ((w.getD (t - 3) 0) ^^^ (w.getD (t - 8) 0) ^^^
        (w.getD (t - 14) 0) ^^^ (w.getD (t - 16) 0))))
    block.toArray

/-- One SHA-1 compression round. -/
def sha1Round (w : Array Nat) (st : SHA1State) (t : Nat) : SHA1State :=
  let tmp := (rotl32 5 st.a + sha1F t st.b st.c st.d + st.e + sha1K t + w.getD t 0) % 4294967296
  ⟨tmp, st.a, rotl32 30 st.b, st.c, st.d⟩

/-- Process one 16-word block through the 80 rounds and add the result
to the chaining state. -/
def sha1ProcessBlock (st : SHA1State) (block : List Nat) : SHA1State :=
  let w := sha1Schedule block
  let r := (List.range 80).foldl (sha1Round w) st
  ⟨(st.a + r.a) % 4294967296, (st.b + r.b) % 4294967296, (st.c + r.c) % 4294967296,
    (st.d + r.d) % 4294967296, (st.e + r.e) % 4294967296⟩

/-- SHA-1 message padding: byte 0x80, zero bytes up to 56 mod 64, then
the bit length as a 64-bit big-endian integer. -/
def sha1Pad (msg : List Nat) : List Nat :=
  let bitLen := msg.length * 8
  let padZeros := (119 - msg.length % 64) % 64
  msg ++ [128] ++ List.replicate padZeros 0 ++
    (List.range 8).map (fun i => (bitLen >>> ((7 - i) * 8)) % 256)

/-- Group bytes into 32-bit big-endian words. -/
def bytesToWords : List Nat → List Nat
  | b0 :: b1 :: b2 :: b3 :: rest =>
      (((b0 * 256 + b1) * 256 + b2) * 256 + b3) :: bytesToWords rest
  | _ => []

/-- Cut a list into consecutive chunks of length `k`, with an explicit
structural fuel so that the kernel can evaluate the definition. -/
def chunkListFuel (k : Nat) : Nat → List α → List (List α)
  | _, [] => []
  | 0, _ => []
  | fuel + 1, l => l.take k :: chunkListFuel k fuel (l.drop k)

/-- Cut a list into consecutive chunks of length `k`; for `1 ≤ k` the
fuel `l.length` never runs out. -/
def chunkList (k : Nat) (l : List α) : List (List α) :=
  chunkListFuel k l.length l

/-- SHA-1 of a byte list, as the 20-byte digest. -/
def sha1 (msg : List Nat) : List Nat :=
  let blocks := chunkList 64 (sha1Pad msg)
  let h0 : SHA1State := ⟨0x67452301, 0xEFCDAB89, 0x98BADCFE, 0x10325476, 0xC3D2E1F0⟩
  let hN := blocks.foldl (fun st b => sha1ProcessBlock st (bytesToWords b)) h0
  [hN.a, hN.b, hN.c, hN.d, hN.e].flatMap
    (fun w => [(w >>> 24) % 256, (w >>> 16) % 256, (w >>> 8) % 256, w % 256])

/-- The fixed namespace UUID `6f34c6f4-13d6-43c0-8e4e-42b6c13203af` of
`odc_uuid`, as 16 bytes. -/
def UUID_NAMESPACE_ODC : List Nat :=
  [0x6f, 0x34, 0xc6, 0xf4, 0x13, 0xd6, 0x43, 0xc0,
   0x8e, 0x4e, 0x42, 0xb6, 0xc1, 0x32, 0x03, 0xaf]

/-- RFC 4122 name-based version-5 UUID: SHA-1 of namespace bytes
followed by name bytes, truncated to 16 bytes, with the version and
variant bits forced. -/
def uuid5 (ns nameBytes : List Nat) : List Nat :=
  let h := (sha1 (ns ++ nameBytes)).take 16
  (h.set 6 (((h.getD 6 0) &&& 0x0f) ||| 0x50)).set 8 (((h.getD 8 0) &&& 0x3f) ||| 0x80)

/-- Python str.lower restricted to ASCII text: `String.toLower`
unfolded to a kernel-reducible character-wise form. -/
def strLower (s : String) : String := ⟨s.data.map Char.toLower⟩

/-- UTF-8 bytes of a string: the definition of `String.toUTF8`
(`a.data.flatMap utf8EncodeChar`) unfolded to a kernel-reducible form. -/
def strToBytes (s : String) : List Nat :=
  (s.data.flatMap String.utf8EncodeChar).map (fun b => b.toNat)

/-- Embedding of `odc_uuid` from `utils.py`: newline-joined, lower-cased
concatenation of `[algorithm, version, deployment_id]`, the sorted tag
strings `k=v` and the stringified sorted sources, hashed with uuid5
under the fixed namespace.  Sources are modelled as strings, which is
how every call site in the repository passes them; `str` applied to a
string is the identity, and lower-casing is modelled for ASCII text. -/
def odc_uuid (algorithm algorithmVersion : String) (sources : List String)
    (deploymentId : String) (otherTags : List (String × String)) : List Nat :=
  let tags := otherTags.map (fun kv => kv.1 ++ "=" ++ kv.2)
  let stringifiedSources := [algorithm, algorithmVersion, deploymentId]
    ++ List.insertionSort (fun x y => x ≤ y) tags
    ++ (List.insertionSort (fun x y => x ≤ y) sources).map (fun u => u)
  let srcsHashes := String.intercalate "\n" (stringifiedSources.map strLower)
  uuid5 UUID_NAMESPACE_ODC (strToBytes srcsHashes)

/-- Modelled from the spec: the reference definition of the UUID
generator, as the spec words it — canonical string = newline-joined,
lower-cased concatenation of `[algorithm, version, deployment_id]`
followed by the sorted tag strings and `sorted(str(source) for source
in sources)`, hashed with a name-based (version-5) derivation under the
fixed constant namespace. -/
def uuid_for (algorithm version : String) (sources : List String)
    (deploymentId : String) (tags : List (String × String)) : List Nat :=
  let tagStrs := tags.map (fun kv => kv.1 ++ "=" ++ kv.2)
  let canonical := String.intercalate "\n"
    (([algorithm, version, deploymentId]
      ++ List.insertionSort (fun x y => x ≤ y) tagStrs
      ++ List.insertionSort (fun x y => x ≤ y) (sources.map (fun u => toString u))).map
      strLower)
  uuid5 UUID_NAMESPACE_ODC (strToBytes canonical)

theorem map_toString_self (l : List String) : l.map (fun u => toString u) = l := by
  induction l with
  | nil => rfl
  | cons a t ih =>
      simp only [List.map_cons, ih]
      rfl

theorem map_fun_id (l : List String) : l.map (fun u => u) = l := by
  induction l with
  | nil => rfl
  | cons a t ih => simp only [List.map_cons, ih]

theorem insertionSort_eq_of_perm (l₁ l₂ : List String) (h : l₁.Perm l₂) :
    List.insertionSort (fun x y => x ≤ y) l₁ = List.insertionSort (fun x y => x ≤ y) l₂ :=
  @List.eq_of_perm_of_sorted String (fun x y => x ≤ y) inferInstance _ _
    (((List.perm_insertionSort _ l₁).trans h).trans (List.perm_insertionSort _ l₂).symm)
    (List.sorted_insertionSort _ l₁)
    (List.sorted_insertionSort _ l₂)

set_option maxRecDepth 40000 in
/-- Sanity check against the standard SHA-1 test vector for "abc". -/
theorem sha1_matches_test_vector :
    sha1 (strToBytes "abc") =
      [169, 153, 62, 54, 71, 6, 129, 106, 186, 62, 37, 113,
       120, 80, 194, 108, 156, 208, 216, 157] := by decide

set_option maxRecDepth 200000 in
/-- Sanity check: `odc_uuid("wapor_soil_moisture", "v3.0",
["L2-RSM-D.2021-01-D1"])` returns the same bytes as CPython, namely
`ea74f480-ae39-5f0b-9396-990c3241397c`. -/
theorem odc_uuid_matches_cpython :
    odc_uuid "wapor_soil_moisture" "v3.0" ["L2-RSM-D.2021-01-D1"] "" [] =
      [234, 116, 244, 128, 174, 57, 95, 11, 147, 150, 153, 12, 50, 65, 57, 124] := by decide

/-- C2: `odc_uuid` agrees with the reference definition written from
the spec, and calls whose `sources` and `tags` differ only in iteration
order return the identical UUID. -/
theorem odc_uuid_spec (alg ver dep : String) (sources sources2 : List String)
    (tags tags2 : List (String × String))
    (hs : sources2.Perm sources) (ht : tags2.Perm tags) :
    odc_uuid alg ver sources dep tags = uuid_for alg ver sources dep tags ∧
    odc_uuid alg ver sources2 dep tags2 = odc_uuid alg ver sources dep tags := by
  constructor
  · unfold odc_uuid uuid_for
    rw [map_fun_id, map_toString_self]
  · unfold odc_uuid
    simp only [map_fun_id]
    rw [insertionSort_eq_of_perm _ _ hs,
      insertionSort_eq_of_perm _ _ (ht.map (fun kv => kv.1 ++ "=" ++ kv.2))]

theorem odc_uuid_spec_witness :
    odc_uuid "alg" "v1" ["s1", "s2"] "" [("k", "v")] =
      uuid_for "alg" "v1" ["s1", "s2"] "" [("k", "v")] ∧
    odc_uuid "alg" "v1" ["s2", "s1"] "" [("k", "v")] =
      odc_uuid "alg" "v1" ["s1", "s2"] "" [("k", "v")] :=
  odc_uuid_spec "alg" "v1" "" ["s1", "s2"] ["s2", "s1"] [("k", "v")] [("k", "v")]
    (List.Perm.swap "s1" "s2" []) (List.Perm.refl _)

/-! ## Dekad calendar

`get_dekad(year, month, dekad_label)` in `wapor_v3.py` builds the first
and last `datetime` of the month, generates the three dekad start dates
with `pd.date_range(start=first_day, end=last_day, freq="10D",
inclusive="left")`, and dispatches on the label.  The `datetime`
constructor validates year (1..9999), month (1..12) and day; an
unrecognised label leaves the result variables unassigned and the
function fails at its return statement, modelled as the
`invalidDekadLabel` error.  A date-range unpack of the wrong arity
would raise `ValueError`, modelled as `unpackMismatch`.
-/

/-- Gregorian leap year rule, as in Python's `calendar.isleap`. -/
def isLeapYear (y : Nat) : Bool :=
  y % 4 == 0 && (y % 100 != 0 || y % 400 == 0)

/-- Number of days of a month, as in `calendar.monthrange(year, month)[1]`. -/
def daysInMonth (y m : Nat) : Nat :=
  if m = 2 then (if isLeapYear y then 29 else 28)
  else if m = 4 ∨ m = 6 ∨ m = 9 ∨ m = 11 then 30
  else 31

/-- A Python `datetime.datetime` value (microseconds are unused by the
embedded code and omitted). -/
structure PyDateTime where
  year : Nat
  month : Nat
  day : Nat
  hour : Nat
  minute : Nat
  second : Nat
deriving DecidableEq, Repr

/-- Failures of the dekad calendar.  `invalidYear`, `invalidMonth` and
`invalidDay` model the `ValueError`s of the CPython `datetime`
constructor (checked in that order); `invalidDekadLabel` models the
failure at the return statement when no branch assigned the result
variables; `unpackMismatch` models a `ValueError` from unpacking the
date range into three variables. -/
inductive DekadError where
  | invalidYear
  | invalidMonth
  | invalidDay
  | invalidDekadLabel
  | unpackMismatch
deriving DecidableEq, Repr

/-- The CPython `datetime(year, month, day)` constructor with its
argument validation, at midnight. -/
def mkDatetime (y m d : Nat) : Except DekadError PyDateTime :=
  if y < 1 ∨ 9999 < y then .error .invalidYear
  else if m < 1 ∨ 12 < m then .error .invalidMonth
  else if d < 1 ∨ daysInMonth y m < d then .error .invalidDay
  else .ok ⟨y, m, d, 0, 0, 0⟩

/-- Day numbers produced by `pd.date_range(first_day, last_day,
freq="10D", inclusive="left")` for a month whose last day is
`lastDay`: the days `1 + 10 * k` strictly before the last day. -/
def tenDayStarts (lastDay : Nat) : List Nat :=
  ((List.range lastDay).map (fun k => 1 + 10 * k)).filter (fun d => decide (d < lastDay))

/-- Subtract one day from a date, as `relativedelta(days=1)` does. -/
def subOneDay (dt : PyDateTime) : PyDateTime :=
  if 1 < dt.day then { dt with day := dt.day - 1 }
  else if 1 < dt.month then
    { dt with month := dt.month - 1, day := daysInMonth dt.year (dt.month - 1) }
  else { dt with year := dt.year - 1, month := 12, day := 31 }

/-- Embedding of `get_dekad` from `wapor_v3.py`.  Returns
`(input_datetime, (start_datetime, end_datetime))`.  The statements of
the Python body run in order, every raised error aborting the rest. -/
def get_dekad (year month : Nat) (dekadLabel : String) :
    Except DekadError (PyDateTime × PyDateTime × PyDateTime) :=
  match mkDatetime year month 1 with
  | .error e => .error e
  | .ok _firstDay =>
    match mkDatetime year month (daysInMonth year month) with
    | .error e => .error e
    | .ok lastDay =>
      match tenDayStarts (daysInMonth year month) with
      | [d1s, d2s, d3s] =>
        if dekadLabel = "D1" then
          let inputDt := subOneDay ⟨year, month, d2s, 0, 0, 0⟩
          .ok (inputDt, ⟨year, month, d1s, 0, 0, 0⟩,
            { inputDt with hour := 23, minute := 59, second := 59 })
        else if dekadLabel = "D2" then
          let inputDt := subOneDay ⟨year, month, d3s, 0, 0, 0⟩
          .ok (inputDt, ⟨year, month, d2s, 0, 0, 0⟩,
            { inputDt with hour := 23, minute := 59, second := 59 })
        else if dekadLabel = "D3" then
          .ok (lastDay, ⟨year, month, d3s, 0, 0, 0⟩,
            { lastDay with hour := 23, minute := 59, second := 59 })
        else .error .invalidDekadLabel
      | _ => .error .unpackMismatch

theorem daysInMonth_bounds (y m : Nat) : 28 ≤ daysInMonth y m ∧ daysInMonth y m ≤ 31 := by
  unfold daysInMonth
  split
  · split <;> omega
  · split <;> omega

theorem tenDayStarts_eq (lastDay : Nat) (h28 : 28 ≤ lastDay) (h31 : lastDay ≤ 31) :
    tenDayStarts lastDay = [1, 11, 21] := by
  interval_cases lastDay <;> decide

theorem get_dekad_month_starts (y m : Nat) :
    tenDayStarts (daysInMonth y m) = [1, 11, 21] :=
  tenDayStarts_eq _ (daysInMonth_bounds y m).1 (daysInMonth_bounds y m).2

theorem mkDatetime_ok (y m d : Nat) (h1 : 1 ≤ y) (h2 : y ≤ 9999) (h3 : 1 ≤ m)
    (h4 : m ≤ 12) (h5 : 1 ≤ d) (h6 : d ≤ daysInMonth y m) :
    mkDatetime y m d = .ok ⟨y, m, d, 0, 0, 0⟩ := by
  unfold mkDatetime
  rw [if_neg (by omega), if_neg (by omega), if_neg (by omega)]

theorem mkDatetime_invalidMonth (y m d : Nat) (h1 : 1 ≤ y) (h2 : y ≤ 9999)
    (hm : m < 1 ∨ 12 < m) : mkDatetime y m d = .error .invalidMonth := by
  unfold mkDatetime
  rw [if_neg (by omega), if_pos hm]

/-- C3: for every valid year and month and every label in D1, D2, D3,
`get_dekad` returns a range whose start carries time 00:00:00 and whose
end carries 23:59:59, with D1 covering days 1 to 10, D2 days 11 to 20
and D3 day 21 through the true last calendar day of the month; the
three concrete examples of the spec evaluate as stated. -/
theorem get_dekad_ranges (year month : Nat) (label : String)
    (hy : 1 ≤ year ∧ year ≤ 9999) (hm : 1 ≤ month ∧ month ≤ 12)
    (hl : label = "D1" ∨ label = "D2" ∨ label = "D3") :
    (∃ inp s e, get_dekad year month label = .ok (inp, s, e) ∧
      s.hour = 0 ∧ s.minute = 0 ∧ s.second = 0 ∧
      e.hour = 23 ∧ e.minute = 59 ∧ e.second = 59 ∧
      s.year = year ∧ s.month = month ∧ e.year = year ∧ e.month = month ∧
      (label = "D1" → s.day = 1 ∧ e.day = 10) ∧
      (label = "D2" → s.day = 11 ∧ e.day = 20) ∧
      (label = "D3" → s.day = 21 ∧ e.day = daysInMonth year month)) ∧
    get_dekad 2024 2 "D3" =
      .ok (⟨2024, 2, 29, 0, 0, 0⟩, ⟨2024, 2, 21, 0, 0, 0⟩, ⟨2024, 2, 29, 23, 59, 59⟩) ∧
    get_dekad 2023 2 "D3" =
      .ok (⟨2023, 2, 28, 0, 0, 0⟩, ⟨2023, 2, 21, 0, 0, 0⟩, ⟨2023, 2, 28, 23, 59, 59⟩) ∧
    get_dekad 2024 1 "D1" =
      .ok (⟨2024, 1, 10, 0, 0, 0⟩, ⟨2024, 1, 1, 0, 0, 0⟩, ⟨2024, 1, 10, 23, 59, 59⟩) := by
  have hd28 := (daysInMonth_bounds year month).1
  have hd1 : mkDatetime year month 1 = .ok ⟨year, month, 1, 0, 0, 0⟩ :=
    mkDatetime_ok _ _ _ hy.1 hy.2 hm.1 hm.2 (by omega) (by omega)
  have hd2 : mkDatetime year month (daysInMonth year month) =
      .ok ⟨year, month, daysInMonth year month, 0, 0, 0⟩ :=
    mkDatetime_ok _ _ _ hy.1 hy.2 hm.1 hm.2 (by omega) (by omega)
  have hts := get_dekad_month_starts year month
  refine ⟨?_, by rfl, by rfl, by rfl⟩
  rcases hl with rfl | rfl | rfl
  · have hg : get_dekad year month "D1" =
        .ok (⟨year, month, 10, 0, 0, 0⟩, ⟨year, month, 1, 0, 0, 0⟩,
          ⟨year, month, 10, 23, 59, 59⟩) := by
      rw [get_dekad, hd1, hd2, hts]
      simp [subOneDay]
    exact ⟨_, _, _, hg, rfl, rfl, rfl, rfl, rfl, rfl, rfl, rfl, rfl, rfl,
      fun _ => ⟨rfl, rfl⟩, fun h => absurd h (by decide), fun h => absurd h (by decide)⟩
  · have hg : get_dekad year month "D2" =
        .ok (⟨year, month, 20, 0, 0, 0⟩, ⟨year, month, 11, 0, 0, 0⟩,
          ⟨year, month, 20, 23, 59, 59⟩) := by
      rw [get_dekad, hd1, hd2, hts]
      simp [subOneDay]
    exact ⟨_, _, _, hg, rfl, rfl, rfl, rfl, rfl, rfl, rfl, rfl, rfl, rfl,
      fun h => absurd h (by decide), fun _ => ⟨rfl, rfl⟩, fun h => absurd h (by decide)⟩
  · have hg : get_dekad year month "D3" =
        .ok (⟨year, month, daysInMonth year month, 0, 0, 0⟩, ⟨year, month, 21, 0, 0, 0⟩,
          ⟨year, month, daysInMonth year month, 23, 59, 59⟩) := by
      rw [get_dekad, hd1, hd2, hts]
      simp
    exact ⟨_, _, _, hg, rfl, rfl, rfl, rfl, rfl, rfl, rfl, rfl, rfl, rfl,
      fun h => absurd h (by decide), fun h => absurd h (by decide), fun _ => ⟨rfl, rfl⟩⟩

theorem get_dekad_ranges_witness :
    (∃ inp s e, get_dekad 2025 6 "D2" = .ok (inp, s, e) ∧
      s.hour = 0 ∧ s.minute = 0 ∧ s.second = 0 ∧
      e.hour = 23 ∧ e.minute = 59 ∧ e.second = 59 ∧
      s.year = 2025 ∧ s.month = 6 ∧ e.year = 2025 ∧ e.month = 6 ∧
      ("D2" = "D1" → s.day = 1 ∧ e.day = 10) ∧
      ("D2" = "D2" → s.day = 11 ∧ e.day = 20) ∧
      ("D2" = "D3" → s.day = 21 ∧ e.day = daysInMonth 2025 6)) ∧
    get_dekad 2024 2 "D3" =
      .ok (⟨2024, 2, 29, 0, 0, 0⟩, ⟨2024, 2, 21, 0, 0, 0⟩, ⟨2024, 2, 29, 23, 59, 59⟩) ∧
    get_dekad 2023 2 "D3" =
      .ok (⟨2023, 2, 28, 0, 0, 0⟩, ⟨2023, 2, 21, 0, 0, 0⟩, ⟨2023, 2, 28, 23, 59, 59⟩) ∧
    get_dekad 2024 1 "D1" =
      .ok (⟨2024, 1, 10, 0, 0, 0⟩, ⟨2024, 1, 1, 0, 0, 0⟩, ⟨2024, 1, 10, 23, 59, 59⟩) :=
  get_dekad_ranges 2025 6 "D2" (by omega) (by omega) (Or.inr (Or.inl rfl))

/-- C6: an invalid month fails with `invalidMonth` (checked first, by
the datetime constructor); a valid month with a label outside D1, D2,
D3 fails with `invalidDekadLabel`; and a range is only ever returned
for a valid month and a valid label. -/
theorem get_dekad_invalid (year month : Nat) (label : String)
    (hy : 1 ≤ year ∧ year ≤ 9999) :
    (1 ≤ month ∧ month ≤ 12 → label ≠ "D1" → label ≠ "D2" → label ≠ "D3" →
      get_dekad year month label = .error .invalidDekadLabel) ∧
    (month < 1 ∨ 12 < month → get_dekad year month label = .error .invalidMonth) ∧
    (∀ r, get_dekad year month label = .ok r →
      (1 ≤ month ∧ month ≤ 12) ∧ (label = "D1" ∨ label = "D2" ∨ label = "D3")) := by
  refine ⟨?_, ?_, ?_⟩
  · intro hm hL1 hL2 hL3
    have hd28 := (daysInMonth_bounds year month).1
    have hd1 : mkDatetime year month 1 = .ok ⟨year, month, 1, 0, 0, 0⟩ :=
      mkDatetime_ok _ _ _ hy.1 hy.2 hm.1 hm.2 (by omega) (by omega)
    have hd2 : mkDatetime year month (daysInMonth year month) =
        .ok ⟨year, month, daysInMonth year month, 0, 0, 0⟩ :=
      mkDatetime_ok _ _ _ hy.1 hy.2 hm.1 hm.2 (by omega) (by omega)
    simp only [get_dekad, hd1, hd2, get_dekad_month_starts year month]
    rw [if_neg hL1, if_neg hL2, if_neg hL3]
  · intro hm
    rw [get_dekad, mkDatetime_invalidMonth _ _ _ hy.1 hy.2 hm]
  · intro r hr
    by_cases hm : 1 ≤ month ∧ month ≤ 12
    · refine ⟨hm, ?_⟩
      by_cases h1 : label = "D1"
      · exact Or.inl h1
      by_cases h2 : label = "D2"
      · exact Or.inr (Or.inl h2)
      by_cases h3 : label = "D3"
      · exact Or.inr (Or.inr h3)
      · have hd28 := (daysInMonth_bounds year month).1
        have hd1 : mkDatetime year month 1 = .ok ⟨year, month, 1, 0, 0, 0⟩ :=
          mkDatetime_ok _ _ _ hy.1 hy.2 hm.1 hm.2 (by omega) (by omega)
        have hd2 : mkDatetime year month (daysInMonth year month) =
            .ok ⟨year, month, daysInMonth year month, 0, 0, 0⟩ :=
          mkDatetime_ok _ _ _ hy.1 hy.2 hm.1 hm.2 (by omega) (by omega)
        simp only [get_dekad, hd1, hd2, get_dekad_month_starts year month,
          if_neg h1, if_neg h2, if_neg h3] at hr
        exact Except.noConfusion hr
    · rw [get_dekad, mkDatetime_invalidMonth _ _ _ hy.1 hy.2 (by omega)] at hr
      exact Except.noConfusion hr

theorem get_dekad_invalid_witness :
    get_dekad 2024 5 "D4" = .error .invalidDekadLabel ∧
    get_dekad 2024 13 "D1" = .error .invalidMonth :=
  ⟨(get_dekad_invalid 2024 5 "D4" (by omega)).1 (by omega)
      (by decide) (by decide) (by decide),
    (get_dekad_invalid 2024 13 "D1" (by omega)).2.1 (by omega)⟩

/-! ## Tile-identity parsers

`prepare_dataset` in `esa_worldcereal/prepare_metadata.py` and the loop
in `esa_worldcereal/create_stac.py` unpack
`basename.removesuffix(".tif").split("_")` into exactly six variables
(`{AEZ_id}_{season}_{product}_{startdate}_{enddate}_{kind}`); any other
field count raises `ValueError`, modelled as `malformedIdentifier`.
`download_wapor_v3_cogs` unpacks `tile_id.split(".")[-1].split("-")`
into three variables and falls back to two on `ValueError`.  String
splitting is embedded character-wise so the kernel can evaluate it;
Python `str.split(sep)` with an explicit separator keeps empty fields,
and so does this embedding.
-/

/-- Split a character list at every occurrence of `sep`, keeping empty
groups, as Python `str.split(sep)` does. -/
def splitOnChar (sep : Char) : List Char → List (List Char)
  | [] => [[]]
  | c :: rest =>
    if c == sep then [] :: splitOnChar sep rest
    else
      match splitOnChar sep rest with
      | [] => [[c]]
      | g :: gs => (c :: g) :: gs

/-- Python `str.split(sep)` for a one-character separator. -/
def strSplitOn (sep : Char) (s : String) : List String :=
  (splitOnChar sep s.data).map (fun g => ⟨g⟩)

/-- Bool test that `p` is a suffix of `s`, on the character lists. -/
def strEndsWith (s p : String) : Bool := p.data.isSuffixOf s.data

/-- Bool test that `p` starts `s`, on the character lists. -/
def strStartsWith (s p : String) : Bool := p.data.isPrefixOf s.data

/-- Python `str.removesuffix`. -/
def removeSuffix (s suffx : String) : String :=
  if strEndsWith s suffx then ⟨s.data.take (s.data.length - suffx.data.length)⟩ else s

/-- The six fields of the WorldCereal file naming grammar. -/
structure WorldCerealFields where
  aez_id : String
  season : String
  product : String
  startdate : String
  enddate : String
  kind : String
deriving DecidableEq, Repr

/-- Failure of a tile-identity parse: the `ValueError` raised by a
tuple unpack of the wrong arity, identifying the offending filename. -/
inductive ParseErr where
  | malformedIdentifier (filename : String)
deriving DecidableEq, Repr

/-- Embedding of the WorldCereal tile-identity parse:
`AEZ_id, season, product, startdate, enddate, _ =
basename.removesuffix(".tif").split("_")`. -/
def parseWorldCereal (filename : String) : Except ParseErr WorldCerealFields :=
  match strSplitOn '_' (removeSuffix filename ".tif") with
  | [a, s, p, sd, ed, k] => .ok ⟨a, s, p, sd, ed, k⟩
  | _ => .error (.malformedIdentifier filename)

/-- Embedding of the WaPOR tile-id parse in `download_wapor_v3_cogs`:
`year, month, _ = tile_id.split(".")[-1].split("-")` guarded by a
`try/except ValueError` fallback to `year, month = ...`; any other
token count raises through the fallback. -/
def parseWaporTileId (tileId : String) : Except ParseErr (String × String) :=
  match strSplitOn '-' ((strSplitOn '.' tileId).getLastD "") with
  | [y, m, _d] => .ok (y, m)
  | [y, m] => .ok (y, m)
  | _ => .error (.malformedIdentifier tileId)

/-- Bool test that an `Except` is a success. -/
def exceptIsOk : Except ε α → Bool
  | .ok _ => true
  | .error _ => false

/-- Skeleton of the per-item worker loop of `create_stac_files`: the
items are processed in order and there is no `try/except` around the
loop body, so the first parse failure propagates and aborts the
remaining items. -/
def processItems : List String → Except ParseErr (List WorldCerealFields)
  | [] => .ok []
  | f :: rest =>
    match parseWorldCereal f with
    | .error e => .error e
    | .ok flds =>
      match processItems rest with
      | .error e => .error e
      | .ok out => .ok (flds :: out)

/-- C5: a WorldCereal-style filename whose underscore-split field count
differs from the 6 fields of the grammar fails with an error naming the
offending filename, and a successful parse returns exactly the six
split fields, never a truncated or guessed subset. -/
theorem worldcereal_parse_malformed (f : String) :
    (((strSplitOn '_' (removeSuffix f ".tif")).length ≠ 6) →
      parseWorldCereal f = .error (.malformedIdentifier f)) ∧
    (∀ flds, parseWorldCereal f = .ok flds →
      strSplitOn '_' (removeSuffix f ".tif") =
        [flds.aez_id, flds.season, flds.product, flds.startdate, flds.enddate, flds.kind]) := by
  constructor
  · intro h
    unfold parseWorldCereal
    split
    · rename_i heq
      rw [heq] at h
      exact absurd rfl h
    · rfl
  · intro flds hok
    unfold parseWorldCereal at hok
    split at hok
    · rename_i heq
      cases hok
      exact heq
    · exact Except.noConfusion hok

theorem worldcereal_parse_malformed_witness :
    parseWorldCereal "bad_name.tif" = .error (.malformedIdentifier "bad_name.tif") ∧
    strSplitOn '_' (removeSuffix "1_tc-annual_product_20210101_20211231_classification.tif" ".tif") =
      ["1", "tc-annual", "product", "20210101", "20211231", "classification"] :=
  ⟨(worldcereal_parse_malformed "bad_name.tif").1 (by decide),
    (worldcereal_parse_malformed
        "1_tc-annual_product_20210101_20211231_classification.tif").2
      ⟨"1", "tc-annual", "product", "20210101", "20211231", "classification"⟩ (by rfl)⟩

/-- C7: the WaPOR tile-id parser accepts both a 2-token (year, month)
and a 3-token (year, month, day-or-dekad) trailing group, selected by
token count through the `try/except ValueError` fallback, and succeeds
in both cases with the first two tokens. -/
theorem wapor_tileid_variants (tileId y m d : String) :
    (strSplitOn '-' ((strSplitOn '.' tileId).getLastD "") = [y, m, d] →
      parseWaporTileId tileId = .ok (y, m)) ∧
    (strSplitOn '-' ((strSplitOn '.' tileId).getLastD "") = [y, m] →
      parseWaporTileId tileId = .ok (y, m)) := by
  constructor
  · intro h
    unfold parseWaporTileId
    rw [h]
  · intro h
    unfold parseWaporTileId
    rw [h]

theorem wapor_tileid_variants_witness :
    parseWaporTileId "L2-RSM-D.2021-01-D1" = .ok ("2021", "01") ∧
    parseWaporTileId "L2-AETI-M.2021-01" = .ok ("2021", "01") :=
  ⟨(wapor_tileid_variants "L2-RSM-D.2021-01-D1" "2021" "01" "D1").1 (by decide),
    (wapor_tileid_variants "L2-AETI-M.2021-01" "2021" "01" "").2 (by decide)⟩

/-- C8 counterexample: in the per-item worker loop a malformed filename
is not caught; its error is the result of the whole loop, so the item
after it is never processed and the worker run aborts. -/
theorem loop_aborts_on_bad_item :
    processItems
      ["1_s_p_sd_ed_classification.tif", "badname.tif", "2_s_p_sd_ed_classification.tif"] =
      .error (.malformedIdentifier "badname.tif") := by rfl

/-- C8 amended: per-item failures are not caught at the loop boundary;
the loop propagates the first parse failure, aborting every item after
it, no matter how many well-formed items surround it. -/
theorem loop_propagates_first_failure (xs ys : List String) (b : String) (e : ParseErr)
    (hxs : ∀ x ∈ xs, exceptIsOk (parseWorldCereal x) = true)
    (hb : parseWorldCereal b = .error e) :
    processItems (xs ++ b :: ys) = .error e := by
  induction xs with
  | nil =>
      simp only [List.nil_append, processItems, hb]
  | cons a t ih =>
      have ha := hxs a (by simp)
      have ht : ∀ x ∈ t, exceptIsOk (parseWorldCereal x) = true :=
        fun x hx => hxs x (by simp [hx])
      cases hpa : parseWorldCereal a with
      | error ea =>
          rw [hpa] at ha
          exact absurd ha (by simp [exceptIsOk])
      | ok flds =>
          have hrest := ih ht
          show processItems (a :: (t ++ b :: ys)) = .error e
          unfold processItems
          rw [hpa, hrest]

theorem loop_propagates_first_failure_witness :
    processItems ["1_s_p_sd_ed_conf.tif", "oops.tif", "2_s_p_sd_ed_conf.tif"] =
      .error (.malformedIdentifier "oops.tif") :=
  loop_propagates_first_failure ["1_s_p_sd_ed_conf.tif"] ["2_s_p_sd_ed_conf.tif"]
    "oops.tif" (.malformedIdentifier "oops.tif") (by decide) (by rfl)

/-! ## Path/URI classifier and gdal handler paths

`io.py` classifies paths purely by the scheme extracted by
`urllib.parse.urlparse`: `is_s3_path` tests for scheme `s3`,
`is_gcsfs_path` for `gcs` or `gs`, `is_url` for `http` or `https`, and
`get_filesystem` falls back to the local filesystem for every other
scheme.  `urlparse` recognises a scheme only when a colon is present,
the text before it is non-empty, starts with an ASCII letter and
consists of letters, digits, `+`, `-` and `.`; the scheme is
lower-cased.  The model ignores query and fragment components, which no
embedded call site uses.
-/

/-- Characters allowed in a URL scheme by `urllib.parse`. -/
def schemeCharOk (c : Char) : Bool := c.isAlphanum || c == '+' || c == '-' || c == '.'

/-- The scheme extracted by `urllib.parse.urlparse(url).scheme`, or ""
when the url has none. -/
def urlScheme (url : String) : String :=
  let beforeColon := url.data.takeWhile (fun c => c != ':')
  if beforeColon.length < url.data.length ∧
      (beforeColon.headD '0').isAlpha ∧ beforeColon.all schemeCharOk then
    ⟨beforeColon.map Char.toLower⟩
  else ""

/-- Embedding of `is_s3_path` from `io.py`. -/
def is_s3_path (path : String) : Bool := urlScheme path == "s3"

/-- Embedding of `is_gcsfs_path` from `io.py`. -/
def is_gcsfs_path (path : String) : Bool := urlScheme path == "gcs" || urlScheme path == "gs"

/-- Embedding of `is_url` from `io.py`. -/
def is_url (path : String) : Bool := urlScheme path == "http" || urlScheme path == "https"

/-- The four path classes the repository distinguishes. -/
inductive PathClass where
  | localfs
  | s3
  | gcs
  | http
deriving DecidableEq, Repr

/-- The path/URI classifier: the scheme dispatch of `io.py`
(`is_s3_path`, then `is_gcsfs_path`, then `is_url`, defaulting to the
local filesystem, as `get_filesystem` does). -/
def classifyPath (p : String) : PathClass :=
  if is_s3_path p then .s3
  else if is_gcsfs_path p then .gcs
  else if is_url p then .http
  else .localfs

/-- The part of the url after `scheme:`, or the whole url when no
scheme parses. -/
def urlRest (url : String) : String :=
  if urlScheme url = "" then url
  else ⟨(url.data.dropWhile (fun c => c != ':')).drop 1⟩

/-- `urlparse(url).netloc`: present only after a `//`. -/
def urlNetloc (url : String) : String :=
  let rest := urlRest url
  if strStartsWith rest "//" then ⟨(rest.data.drop 2).takeWhile (fun c => c != '/')⟩
  else ""

/-- `urlparse(url).path` (query and fragment not modelled). -/
def urlPath (url : String) : String :=
  let rest := urlRest url
  if strStartsWith rest "//" then ⟨(rest.data.drop 2).dropWhile (fun c => c != '/')⟩
  else rest

/-- Two-argument posix `os.path.join`. -/
def pathJoin (a b : String) : String :=
  if strStartsWith b "/" then b
  else if a = "" ∨ strEndsWith a "/" then a ++ b
  else a ++ "/" ++ b

/-- Three-argument posix `os.path.join`. -/
def pathJoin3 (a b c : String) : String := pathJoin (pathJoin a b) c

/-- Python `key.lstrip("/")`: remove every leading slash. -/
def lstripSlash (s : String) : String := ⟨s.data.dropWhile (fun c => c == '/')⟩

/-- `os.path.abspath` relative to an explicit working directory; dot
normalisation is not modelled, the claims depend only on a value being
returned. -/
def abspath (cwd url : String) : String :=
  if strStartsWith url "/" then url else pathJoin cwd url

/-- Embedding of `get_path_with_handler` from `download_wapor_v3_cogs`:
an `if/elif` chain over the scheme assigns the handler path for
http(s), s3 and gcs/gs, a separate `if` covers the empty and `file`
schemes with `os.path.abspath`, and any other scheme leaves the result
variable unassigned so the `return` raises `UnboundLocalError`,
modelled as `none`. -/
def get_path_with_handler (cwd url : String) : Option String :=
  let scheme := urlScheme url
  let bucket := urlNetloc url
  let key := urlPath url
  let chain : Option String :=
    if scheme = "http" ∨ scheme = "https" then some (pathJoin "/vsicurl/" url)
    else if scheme = "s3" then some (pathJoin3 "/vsis3/" bucket (lstripSlash key))
    else if scheme = "gcs" ∨ scheme = "gs" then some (pathJoin3 "/vsigs/" bucket (lstripSlash key))
    else none
  if scheme = "" ∨ scheme = "file" then some (abspath cwd url) else chain

/-- C9: the classifier decides by URI scheme only and never fails —
`s3` schemes classify as s3, `gs`/`gcs` as gcs, `http`/`https` as http
and every other scheme (including none) as local — and on the four
fixed sample URIs it covers all four classes. -/
theorem classifier_by_scheme (p : String) :
    (urlScheme p = "s3" → classifyPath p = .s3) ∧
    (urlScheme p = "gcs" ∨ urlScheme p = "gs" → classifyPath p = .gcs) ∧
    (urlScheme p = "http" ∨ urlScheme p = "https" → classifyPath p = .http) ∧
    (urlScheme p ≠ "s3" → urlScheme p ≠ "gcs" → urlScheme p ≠ "gs" →
      urlScheme p ≠ "http" → urlScheme p ≠ "https" → classifyPath p = .localfs) ∧
    classifyPath "s3://b/k" = .s3 ∧
    classifyPath "gs://b/k" = .gcs ∧
    classifyPath "https://h/p" = .http ∧
    classifyPath "/local/p" = .localfs := by
  refine ⟨?_, ?_, ?_, ?_, by decide, by decide, by decide, by decide⟩
  · intro h
    simp [classifyPath, is_s3_path, h]
  · rintro (h | h) <;>
      simp [classifyPath, is_s3_path, is_gcsfs_path, h]
  · rintro (h | h) <;>
      simp [classifyPath, is_s3_path, is_gcsfs_path, is_url, h]
  · intro h1 h2 h3 h4 h5
    simp [classifyPath, is_s3_path, is_gcsfs_path, is_url, h1, h2, h3, h4, h5]

theorem classifier_by_scheme_witness :
    classifyPath "ftp://h/p" = .localfs :=
  (classifier_by_scheme "ftp://h/p").2.2.2.1
    (by decide) (by decide) (by decide) (by decide) (by decide)

/-- C10: `get_path_with_handler` is partial — for every url whose
scheme is outside http, https, s3, gs, gcs, file and the empty scheme
it assigns no handler path (the Python function raises
`UnboundLocalError` at its return statement), while for schemes inside
that set it always returns a value; the sample urls evaluate to their
handler-prefixed paths. -/
theorem handler_path_domain (cwd url : String) :
    (urlScheme url ≠ "http" → urlScheme url ≠ "https" → urlScheme url ≠ "s3" →
      urlScheme url ≠ "gcs" → urlScheme url ≠ "gs" → urlScheme url ≠ "file" →
      urlScheme url ≠ "" → get_path_with_handler cwd url = none) ∧
    (urlScheme url = "http" ∨ urlScheme url = "https" ∨ urlScheme url = "s3" ∨
      urlScheme url = "gcs" ∨ urlScheme url = "gs" ∨ urlScheme url = "file" ∨
      urlScheme url = "" → (get_path_with_handler cwd url).isSome = true) ∧
    get_path_with_handler "/cwd" "ftp://host/p" = none ∧
    get_path_with_handler "/cwd" "https://h/p" = some "/vsicurl/https://h/p" ∧
    get_path_with_handler "/cwd" "s3://bucket/key" = some "/vsis3/bucket/key" ∧
    get_path_with_handler "/cwd" "gs://bucket/key" = some "/vsigs/bucket/key" ∧
    get_path_with_handler "/cwd" "/local/p" = some "/local/p" := by
  refine ⟨?_, ?_, by decide, by decide, by decide, by decide, by decide⟩
  · intro h1 h2 h3 h4 h5 h6 h7
    simp [get_path_with_handler, h1, h2, h3, h4, h5, h6, h7]
  · rintro (h | h | h | h | h | h | h) <;>
      simp [get_path_with_handler, h]

theorem handler_path_domain_witness :
    get_path_with_handler "/w" "ftp2://h/p" = none ∧
    (get_path_with_handler "/w" "file:///d/f").isSome = true :=
  ⟨(handler_path_domain "/w" "ftp2://h/p").1 (by decide) (by decide) (by decide)
      (by decide) (by decide) (by decide) (by decide),
    (handler_path_domain "/w" "file:///d/f").2.1
      (by decide)⟩

end ExternalODC

